import Mathlib

/-!
Verification of the rermius session-engine backend against its
natural-language specification.  The Rust sources under `src-tauri/src/`
are shallowly embedded: pure functions become Lean functions, effectful
orchestration code becomes explicit state/trace passing, machine
integers become `Nat` (u8/u16/u32/u64 values, with explicit masks where
overflow or bit-level behaviour matters), and fallible code returns
`Option`/`Except`.  Rust `String`/`&str` values are embedded as
`List Char` (Unicode scalar values); byte-level operations (`len()`,
byte slicing, `into_bytes()`) go through an explicit UTF-8 encoder.
-/

deriving instance DecidableEq for Except

namespace Rermius

/-- Rust strings are embedded as lists of Unicode scalar values. -/
abbrev Str := List Char

/-- UTF-8 encoding of one Unicode scalar value (`char` in Rust). -/
def charUtf8 (c : Char) : List Nat :=
  let n := c.toNat
  if n < 0x80 then [n]
  else if n < 0x800 then
    [0xC0 ||| (n >>> 6), 0x80 ||| (n &&& 0x3F)]
  else if n < 0x10000 then
    [0xE0 ||| (n >>> 12), 0x80 ||| ((n >>> 6) &&& 0x3F), 0x80 ||| (n &&& 0x3F)]
  else
    [0xF0 ||| (n >>> 18), 0x80 ||| ((n >>> 12) &&& 0x3F),
     0x80 ||| ((n >>> 6) &&& 0x3F), 0x80 ||| (n &&& 0x3F)]

/-- UTF-8 encoding of a string, as Rust `str::as_bytes` / `String::into_bytes`. -/
def utf8Encode (s : Str) : List Nat := s.flatMap charUtf8

/-- Byte length of a string, as Rust `str::len()`. -/
def byteLen (s : Str) : Nat := (utf8Encode s).length

/-- Does `s` start with `pat`?  (Rust `str::starts_with` on the char level.) -/
def startsWithL {α : Type} [DecidableEq α] : List α → List α → Bool
  | [], _ => true
  | _ :: _, [] => false
  | p :: ps, c :: cs => p = c && startsWithL ps cs

/-- Does `s` contain `pat` as a contiguous substring?  (Rust `str::contains`.) -/
def containsSub {α : Type} [DecidableEq α] (s pat : List α) : Bool :=
  match s with
  | [] => pat.isEmpty
  | _ :: cs => startsWithL pat s || containsSub cs pat

/-- Split `s` at the first occurrence of `pat`, returning the pieces before and
after it.  (Rust `str::splitn(2, pat)` when the pattern is known to occur.) -/
def splitOnceSub {α : Type} [DecidableEq α] : List α → List α → Option (List α × List α)
  | [], pat => if pat.isEmpty then some ([], []) else none
  | c :: cs, pat =>
    if startsWithL pat (c :: cs) then some ([], (c :: cs).drop pat.length)
    else
      match splitOnceSub cs pat with
      | some (l, r) => some (c :: l, r)
      | none => none

/-- Lowercasing of one scalar value.  Rust `str::to_lowercase` applies the full
Unicode mapping; on the ASCII range — the only range the embedded code ever
matches lowercased text against — it agrees with `Char.toLower`. -/
def lowerStr (s : Str) : Str := s.map Char.toLower

/-- Decimal representation of a natural number (Rust `{}` formatting of an
unsigned integer). -/
def natStr (n : Nat) : Str := (Nat.repr n).data

end Rermius

/-! ## Telnet protocol codec (`src-tauri/src/telnet/protocol.rs`) -/

namespace Rermius.Telnet

def IAC : Nat := 255
def DONT : Nat := 254
def DO : Nat := 253
def WONT : Nat := 252
def WILL : Nat := 251
def SB : Nat := 250
def GA : Nat := 249
def EL : Nat := 248
def EC : Nat := 247
def AYT : Nat := 246
def AO : Nat := 245
def IP : Nat := 244
def BRK : Nat := 243
def DM : Nat := 242
def NOP : Nat := 241
def SE : Nat := 240

def OPT_ECHO : Nat := 1
def OPT_SGA : Nat := 3
def OPT_TTYPE : Nat := 24
def OPT_NAWS : Nat := 31

/-- `ParseState` from `protocol.rs`. -/
inductive ParseState
  | Data | Iac | Will | Wont | Do | Dont | Sb | SbData | SbIac
  deriving DecidableEq, Repr

/-- `TelnetProtocol` negotiation flags. -/
structure TelnetProtocol where
  naws_enabled : Bool
  sga_enabled : Bool
  echo_enabled : Bool
  deriving DecidableEq, Repr

def TelnetProtocol.new : TelnetProtocol :=
  { naws_enabled := false, sga_enabled := false, echo_enabled := false }

/-- The accumulated state of one `process_data` call: the mutable protocol
flags together with the local variables of the loop body. -/
structure ProcAcc where
  proto : TelnetProtocol
  responses : List Nat
  clean : List Nat
  state : ParseState
  sb_option : Nat
  naws_requested : Bool
  deriving DecidableEq, Repr

/-- UTF-8 bytes of the fixed terminal-type reply string "xterm-256color". -/
def xtermBytes : List Nat := utf8Encode ("xterm-256color".data)

/-- One iteration of the `for &byte in data` loop of
`TelnetProtocol::process_data`. -/
def processByte (a : ProcAcc) (byte : Nat) : ProcAcc :=
  match a.state with
  | ParseState.Data =>
    if byte = IAC then { a with state := ParseState.Iac }
    else { a with clean := a.clean ++ [byte] }
  | ParseState.Iac =>
    if byte = IAC then
      -- Escaped IAC (255 255 -> literal 255)
      { a with clean := a.clean ++ [IAC], state := ParseState.Data }
    else if byte = WILL then { a with state := ParseState.Will }
    else if byte = WONT then { a with state := ParseState.Wont }
    else if byte = DO then { a with state := ParseState.Do }
    else if byte = DONT then { a with state := ParseState.Dont }
    else if byte = SB then { a with state := ParseState.Sb }
    else
      -- single-byte commands (GA NOP DM BRK IP AO AYT EC EL), a stray SE,
      -- and unknown commands are all skipped
      { a with state := ParseState.Data }
  | ParseState.Will =>
    if byte = OPT_ECHO then
      { a with proto := { a.proto with echo_enabled := true },
               responses := a.responses ++ [IAC, DO, OPT_ECHO],
               state := ParseState.Data }
    else if byte = OPT_SGA then
      { a with proto := { a.proto with sga_enabled := true },
               responses := a.responses ++ [IAC, DO, OPT_SGA],
               state := ParseState.Data }
    else
      { a with responses := a.responses ++ [IAC, DONT, byte],
               state := ParseState.Data }
  | ParseState.Wont =>
    if byte = OPT_ECHO then
      { a with proto := { a.proto with echo_enabled := false },
               state := ParseState.Data }
    else if byte = OPT_SGA then
      { a with proto := { a.proto with sga_enabled := false },
               state := ParseState.Data }
    else { a with state := ParseState.Data }
  | ParseState.Do =>
    if byte = OPT_NAWS then
      { a with proto := { a.proto with naws_enabled := true },
               naws_requested := true,
               responses := a.responses ++ [IAC, WILL, OPT_NAWS],
               state := ParseState.Data }
    else if byte = OPT_TTYPE then
      { a with responses := a.responses ++ [IAC, WILL, OPT_TTYPE],
               state := ParseState.Data }
    else if byte = OPT_SGA then
      { a with proto := { a.proto with sga_enabled := true },
               responses := a.responses ++ [IAC, WILL, OPT_SGA],
               state := ParseState.Data }
    else
      { a with responses := a.responses ++ [IAC, WONT, byte],
               state := ParseState.Data }
  | ParseState.Dont =>
    let a :=
      if byte = OPT_NAWS then { a with proto := { a.proto with naws_enabled := false } }
      else if byte = OPT_SGA then { a with proto := { a.proto with sga_enabled := false } }
      else a
    { a with responses := a.responses ++ [IAC, WONT, byte],
             state := ParseState.Data }
  | ParseState.Sb =>
    { a with sb_option := byte, state := ParseState.SbData }
  | ParseState.SbData =>
    if byte = IAC then { a with state := ParseState.SbIac } else a
  | ParseState.SbIac =>
    if byte = SE then
      if a.sb_option = OPT_TTYPE then
        { a with responses := a.responses ++ [IAC, SB, OPT_TTYPE, 0]
                   ++ xtermBytes ++ [IAC, SE],
                 state := ParseState.Data }
      else { a with state := ParseState.Data }
    else
      -- escaped IAC in subnegotiation data, or an unexpected byte:
      -- both return to SbData
      { a with state := ParseState.SbData }

/-- `TelnetProtocol::process_data`: returns
(responses_to_send, clean_data, naws_requested) and the updated flags. -/
def process_data (proto : TelnetProtocol) (data : List Nat) :
    List Nat × List Nat × Bool × TelnetProtocol :=
  let a := data.foldl processByte
    { proto := proto, responses := [], clean := [],
      state := ParseState.Data, sb_option := 0, naws_requested := false }
  (a.responses, a.clean, a.naws_requested, a.proto)

/-- `build_naws` from `protocol.rs`: IAC SB NAWS, the four window-size bytes
with any 255 byte doubled, IAC SE.  `cols`/`rows` are u16 values. -/
def build_naws (cols rows : Nat) : List Nat :=
  let col_high := (cols >>> 8) &&& 0xff
  let col_low := cols &&& 0xff
  let row_high := (rows >>> 8) &&& 0xff
  let row_low := rows &&& 0xff
  let esc : Nat → List Nat := fun b => if b = IAC then [b, IAC] else [b]
  [IAC, SB, OPT_NAWS] ++ esc col_high ++ esc col_low
    ++ esc row_high ++ esc row_low ++ [IAC, SE]

end Rermius.Telnet

/-! ## Block decomposition used to state the amended escaped-IAC claim -/

namespace Rermius.Telnet

/-- A fragment of a telnet input stream that carries no negotiation command:
either a plain data byte (which must differ from IAC) or the two-byte
escaped-IAC sequence. -/
inductive DataBlock
  | lit (b : Nat)
  | escIac
  deriving DecidableEq, Repr

/-- The raw bytes of a block sequence. -/
def renderBlocks : List DataBlock → List Nat
  | [] => []
  | DataBlock.lit b :: r => b :: renderBlocks r
  | DataBlock.escIac :: r => IAC :: IAC :: renderBlocks r

/-- The expected cleaned output: each escaped pair collapsed to one IAC. -/
def unescBlocks : List DataBlock → List Nat
  | [] => []
  | DataBlock.lit b :: r => b :: unescBlocks r
  | DataBlock.escIac :: r => IAC :: unescBlocks r

end Rermius.Telnet

/-! ## Telnet auto-login state machine (`src-tauri/src/telnet/login.rs`)

`AutoLogin::process` mutates a Rust `String` buffer and byte-slices it when it
grows past the cap; a byte slice whose start index is not a UTF-8 character
boundary panics, so the embedding returns `Except Unit`, `Except.error ()`
standing for a panic. -/

namespace Rermius.Login

/-- `LOGIN_PATTERNS` (case-insensitive login prompt fragments). -/
def LOGIN_PATTERNS : List Str :=
  [("login:".data), ("username:".data), ("user:".data), ("user name:".data),
   ("login name:".data), ("account:".data), ("logon:".data)]

/-- `PASSWORD_PATTERNS` (case-insensitive password prompt fragments). -/
def PASSWORD_PATTERNS : List Str :=
  [("password:".data), ("passwd:".data), ("pass:".data), ("secret:".data)]

/-- `LoginState` from `login.rs`. -/
inductive LoginState
  | AwaitingLogin | AwaitingPassword | Authenticated | Disabled
  deriving DecidableEq, Repr

/-- `PromptType` from `login.rs`. -/
inductive PromptType
  | Login | Password
  deriving DecidableEq, Repr

/-- `AutoLogin` handler state. -/
structure AutoLogin where
  state : LoginState
  username : Option Str
  password : Option Str
  buffer : Str
  max_buffer_size : Nat
  deriving DecidableEq, Repr

/-- `AutoLogin::new`. -/
def AutoLogin.new (username password : Option Str) : AutoLogin :=
  { state := if username.isSome then LoginState.AwaitingLogin else LoginState.Disabled,
    username := username, password := password,
    buffer := [], max_buffer_size := 1024 }

/-- `detect_prompt`: lowercase the buffer, check the password patterns first,
then the login patterns. -/
def detect_prompt (buffer : Str) : Option PromptType :=
  let lower := lowerStr buffer
  if PASSWORD_PATTERNS.any (fun pattern => containsSub lower pattern) then
    some PromptType.Password
  else if LOGIN_PATTERNS.any (fun pattern => containsSub lower pattern) then
    some PromptType.Login
  else
    none

/-- Drop the first `start` BYTES of a string, as the Rust slice
`&s[start..]`: an error (= panic) when `start` is larger than the byte length
or falls inside a multi-byte UTF-8 character. -/
def sliceFrom : Str → Nat → Except Unit Str
  | s, 0 => Except.ok s
  | [], _ + 1 => Except.error ()
  | c :: cs, start + 1 =>
    let sz := (charUtf8 c).length
    if start + 1 < sz then Except.error ()
    else sliceFrom cs (start + 1 - sz)

/-- The buffer-truncation block of `AutoLogin::process`: when the byte length
exceeds `max_buffer_size`, keep the byte-level tail starting at
`len - max_buffer_size / 2`. -/
def truncate_buffer (buf : Str) (max_buffer_size : Nat) : Except Unit Str :=
  if byteLen buf > max_buffer_size then
    sliceFrom buf (byteLen buf - max_buffer_size / 2)
  else
    Except.ok buf

/-- `AutoLogin::process`: returns the credential bytes to send, if any,
together with the updated handler; `Except.error ()` is a panic. -/
def AutoLogin.process (al : AutoLogin) (data : Str) :
    Except Unit (Option (List Nat) × AutoLogin) :=
  if al.state = LoginState.Disabled ∨ al.state = LoginState.Authenticated then
    Except.ok (none, al)
  else
    match truncate_buffer (al.buffer ++ data) al.max_buffer_size with
    | Except.error e => Except.error e
    | Except.ok buf2 =>
      match al.state with
      | LoginState.AwaitingLogin =>
        if detect_prompt buf2 = some PromptType.Login then
          match al.username with
          | some username =>
            Except.ok (some (utf8Encode (username ++ ("\r\n".data))),
              { al with
                  state := if al.password.isSome then LoginState.AwaitingPassword
                           else LoginState.Authenticated,
                  buffer := [] })
          | none => Except.ok (none, { al with buffer := buf2 })
        else Except.ok (none, { al with buffer := buf2 })
      | LoginState.AwaitingPassword =>
        if detect_prompt buf2 = some PromptType.Password then
          match al.password with
          | some password =>
            Except.ok (some (utf8Encode (password ++ ("\r\n".data))),
              { al with state := LoginState.Authenticated, buffer := [] })
          | none => Except.ok (none, { al with buffer := buf2 })
        else Except.ok (none, { al with buffer := buf2 })
      | _ => Except.ok (none, { al with buffer := buf2 })

end Rermius.Login

/-! ## Shared data model (`src-tauri/src/core/session.rs`, `core/path_utils.rs`) -/

namespace Rermius.Core

/-- `FileInfo` from `core/session.rs`. -/
structure FileInfo where
  name : Str
  path : Str
  size : Nat
  is_directory : Bool
  is_symlink : Bool
  symlink_target : Option Str
  permissions : Option Str
  modified : Option Str
  owner : Option Str
  group : Option Str
  deriving DecidableEq, Repr

/-- One pass of Rust `str::replace("//", "/")`: non-overlapping left-to-right
replacement. -/
def collapseOnce : Str → Str
  | '/' :: '/' :: rest => '/' :: collapseOnce rest
  | c :: rest => c :: collapseOnce rest
  | [] => []

/-- The `while normalized.contains("//")` loop of `normalize_remote_path`.
Each iteration that fires shortens the string by at least one character, so
`length s` iterations always suffice; the fuel never runs out before the
loop condition turns false. -/
def collapseSlashesFuel : Nat → Str → Str
  | 0, s => s
  | fuel + 1, s =>
    if containsSub s ['/', '/'] then collapseSlashesFuel fuel (collapseOnce s) else s

/-- Rust `str::trim_end_matches('/')`. -/
def trimEndSlashes (s : Str) : Str := (s.reverse.dropWhile (fun c => c = '/')).reverse

/-- `normalize_remote_path` from `core/path_utils.rs`: backslashes to forward
slashes, double slashes collapsed, trailing slash removed except for root. -/
def normalize_remote_path (path : Str) : Str :=
  let n0 := path.map (fun c => if c = '\\' then '/' else c)
  let n1 := collapseSlashesFuel n0.length n0
  if byteLen n1 > 1 ∧ n1.getLast? = some '/' then n1.dropLast else n1

end Rermius.Core

/-! ## FTP LIST line parser (`src-tauri/src/ftp/session.rs`) -/

namespace Rermius.Ftp

open Rermius.Core

/-- Rust `char::is_whitespace`: the Unicode White_Space property. -/
def isRustWhitespace (c : Char) : Bool :=
  let n := c.toNat
  (0x9 ≤ n && n ≤ 0xD) || n = 0x20 || n = 0x85 || n = 0xA0 || n = 0x1680 ||
  (0x2000 ≤ n && n ≤ 0x200A) || n = 0x2028 || n = 0x2029 || n = 0x202F ||
  n = 0x205F || n = 0x3000

/-- Rust `str::trim`. -/
def rustTrim (s : Str) : Str :=
  ((s.dropWhile isRustWhitespace).reverse.dropWhile isRustWhitespace).reverse

/-- Rust `str::split_whitespace().collect::<Vec<_>>()`: the maximal non-empty
runs of non-whitespace characters. -/
def splitWs (s : Str) : List Str :=
  let step : Char → Option Str × List Str → Option Str × List Str :=
    fun c acc =>
      if isRustWhitespace c then
        (none, match acc.1 with | some w => w :: acc.2 | none => acc.2)
      else
        (some (c :: acc.1.getD []), acc.2)
  match s.foldr step (none, []) with
  | (some w, ws) => w :: ws
  | (none, ws) => ws

/-- Rust `str::parse::<u64>()`: optional leading '+', then ASCII digits only,
error on empty digit string or overflow past 2^64 − 1. -/
def parseU64 (s : Str) : Option Nat :=
  let digits := match s with
    | '+' :: rest => rest
    | _ => s
  if digits = [] ∨ ¬ digits.all Char.isDigit then none
  else
    let v := digits.foldl (fun acc c => acc * 10 + (c.toNat - ('0').toNat)) 0
    if v < 2 ^ 64 then some v else none

/-- Rust `[..].join(" ")`. -/
def joinSpace (parts : List Str) : Str := List.intercalate [' '] parts

/-- The `let (name, symlink_target) = if is_symlink && raw_name.contains(" -> ")`
binding of `parse_ftp_list_line`: split a symlink name on the first " -> ". -/
def symlinkNameTarget (is_symlink : Bool) (raw_name : Str) : Str × Option Str :=
  if is_symlink && containsSub raw_name (" -> ".data) then
    match splitOnceSub raw_name (" -> ".data) with
    | some (before, after) => (before, some after)
    | none => (raw_name, none)
  else (raw_name, none)

/-- The body of `parse_ftp_list_line` from the `parts` vector on: everything
after `trimmed.split_whitespace().collect()`. -/
def parseListParts (parts : List Str) (base_path : Str) : Option FileInfo :=
  if parts.length < 9 then none
  else
  let permissions := parts.getD 0 []
  if byteLen permissions < 10 then none
  else
  let first_char := permissions.head?
  if ¬ (first_char = some 'd' ∨ first_char = some '-' ∨ first_char = some 'l' ∨
        first_char = some 'c' ∨ first_char = some 'b' ∨ first_char = some 'p' ∨
        first_char = some 's') then none
  else
  let is_directory := first_char == some 'd'
  let is_symlink := first_char == some 'l'
  let size := (parseU64 (parts.getD 4 [])).getD 0
  let raw_name := joinSpace (parts.drop 8)
  let name_target := symlinkNameTarget is_symlink raw_name
  let name := name_target.1
  if name = [] ∨ name = (".".data) ∨ name = ("..".data) then none
  else
  let file_path :=
    if containsSub name ['\\'] || containsSub name ['/'] then
      if name.head? = some '/' ∨ name.head? = some '\\' then name
      else if base_path = ['/'] then '/' :: name
      else trimEndSlashes base_path ++ '/' :: name
    else
      if base_path = ['/'] then '/' :: name
      else trimEndSlashes base_path ++ '/' :: name
  let modified :=
    if parts.length > 7 then
      some (parts.getD 5 [] ++ [' '] ++ parts.getD 6 [] ++ [' '] ++ parts.getD 7 [])
    else none
  some { name := name, path := file_path, size := size,
         is_directory := is_directory, is_symlink := is_symlink,
         symlink_target := name_target.2,
         permissions := some permissions, modified := modified,
         owner := some (parts.getD 2 []), group := some (parts.getD 3 []) }

/-- `parse_ftp_list_line` from `ftp/session.rs`: parse a Unix-style LIST
line into a `FileInfo`, `none` for any malformed line. -/
def parse_ftp_list_line (line base_path : Str) : Option FileInfo :=
  let trimmed := rustTrim line
  if trimmed = [] then none
  else parseListParts (splitWs trimmed) base_path

end Rermius.Ftp

/-! ## SFTP chmod (`src-tauri/src/sftp/session.rs`)

`SftpSession::chmod` performs three remote round trips (read metadata, set
metadata, re-read metadata for verification).  The embedding abstracts each
round trip as an environment field; `set_metadata` is a function of the
attributes written so that the written value is observable. -/

namespace Rermius.Sftp

/-- The fields of `russh_sftp::protocol::FileAttributes` that `chmod` reads
and carries: all optional, numeric values as `Nat`. -/
structure FileAttributes where
  permissions : Option Nat
  size : Option Nat
  uid : Option Nat
  gid : Option Nat
  atime : Option Nat
  mtime : Option Nat
  deriving DecidableEq, Repr

/-- The remote SFTP server as seen by one `chmod` call. -/
structure ChmodEnv where
  metadata0 : Except Str FileAttributes
  set_metadata : FileAttributes → Except Str Unit
  metadata1 : Except Str FileAttributes

/-- The result of a `chmod` call together with the attributes passed to
`set_metadata` (if that point was reached). -/
structure ChmodOutcome where
  written : Option FileAttributes
  result : Except Str Unit
  deriving DecidableEq, Repr

/-- `SftpSession::chmod`.  `mode` is a u32; `!0o777` in u32 is 4294966784 and
`0o777` is 511.  The verification read and comparison only log: neither an
error nor a mismatch changes the Ok result. -/
def chmod (env : ChmodEnv) (mode : Nat) : ChmodOutcome :=
  match env.metadata0 with
  | Except.error e =>
    { written := none,
      result := Except.error (("Failed to get file metadata: ").data ++ e) }
  | Except.ok current_attrs =>
    let current_perms := current_attrs.permissions.getD 0
    let file_type_bits := current_perms &&& 4294966784
    let new_perms := file_type_bits ||| (mode &&& 511)
    let attrs : FileAttributes :=
      { permissions := some new_perms, size := current_attrs.size,
        uid := current_attrs.uid, gid := current_attrs.gid,
        atime := current_attrs.atime, mtime := current_attrs.mtime }
    match env.set_metadata attrs with
    | Except.error e =>
      { written := some attrs,
        result := Except.error (("Failed to chmod: ").data ++ e) }
    | Except.ok _ =>
      match env.metadata1 with
      | Except.error _ =>
        -- verification failed: warning only, chmod still succeeds
        { written := some attrs, result := Except.ok () }
      | Except.ok verify =>
        let verify_mode := (verify.permissions.getD 0) &&& 511
        if verify_mode ≠ (mode &&& 511) then
          -- mismatch: warning only, chmod still succeeds
          { written := some attrs, result := Except.ok () }
        else
          { written := some attrs, result := Except.ok () }

end Rermius.Sftp

/-! ## SSH connector and tunnel chain (`src-tauri/src/ssh/client.rs`, `ssh/chain.rs`)

The network and the remote servers are abstracted as a `ChainEnv` giving the
outcome of each primitive remote operation per hop index; the error-message
construction and the control flow are the embedded code's.  Progress events
(`ssh-chain-progress`) and log lines are not modelled — no claim mentions
them. -/

namespace Rermius.Ssh

/-- `SshAuth` from `ssh/config.rs`. -/
inductive SshAuth
  | password (pwd : Str)
  | key (path : Str) (passphrase : Option Str)
  | agent
  deriving DecidableEq, Repr

/-- `HostConfig` from `ssh/config.rs` (the connection-kind tag is irrelevant
to the chain and omitted). -/
structure HostConfig where
  hostname : Str
  port : Nat
  username : Str
  auth : SshAuth
  deriving DecidableEq, Repr

/-- `SshError` from `ssh/error.rs`. -/
inductive SshError
  | Connection (m : Str)
  | AuthFailed (m : Str)
  | KeyError (m : Str)
  | ChannelError (m : Str)
  | CommandFailed (m : Str)
  | IoError (m : Str)
  | ProtocolError (m : Str)
  deriving DecidableEq, Repr

/-- The thiserror `#[error("...")]` display strings of `SshError`. -/
def SshError.display : SshError → Str
  | SshError.Connection m => ("Connection error: ").data ++ m
  | SshError.AuthFailed m => ("Authentication failed: ").data ++ m
  | SshError.KeyError m => ("Key error: ").data ++ m
  | SshError.ChannelError m => ("Channel error: ").data ++ m
  | SshError.CommandFailed m => ("Command execution failed: ").data ++ m
  | SshError.IoError m => ("IO error: ").data ++ m
  | SshError.ProtocolError m => ("SSH protocol error: ").data ++ m

/-- The outcome of every primitive remote operation, per hop index. -/
structure ChainEnv where
  connectDirect : Except Str Unit
  bindListener : Nat → Except Str Unit
  localAddr : Nat → Except Str Unit
  sshOverTunnel : Nat → Except Str Unit
  authPassword : Nat → Except SshError Bool
  loadKey : Nat → Except Str Unit
  authPublickey : Nat → Except SshError Bool
  agentAuth : Nat → Except SshError Unit
  tunnelOpen : Nat → Except Str Unit
  sftpNew : Except Str Unit

/-- `client::authenticate` at hop `idx`: Password and Key auth produce
"... auth failed for {username}" on rejection; transport errors pass through
(`?` conversion); Agent auth is delegated whole. -/
def authenticate (env : ChainEnv) (idx : Nat) (config : HostConfig) :
    Except SshError Unit :=
  match config.auth with
  | SshAuth.password _ =>
    match env.authPassword idx with
    | Except.error e => Except.error e
    | Except.ok true => Except.ok ()
    | Except.ok false =>
      Except.error (SshError.AuthFailed
        (("Password auth failed for ").data ++ config.username))
  | SshAuth.key _ _ =>
    match env.loadKey idx with
    | Except.error e => Except.error (SshError.KeyError e)
    | Except.ok _ =>
      match env.authPublickey idx with
      | Except.error e => Except.error e
      | Except.ok true => Except.ok ()
      | Except.ok false =>
        Except.error (SshError.AuthFailed
          (("Key auth failed for ").data ++ config.username))
  | SshAuth.agent => env.agentAuth idx

/-- `client::connect_direct` for the first hop: a russh connect error is
wrapped as `SshError::Connection(e.to_string())`. -/
def connectFirst (env : ChainEnv) : Except SshError Unit :=
  match env.connectDirect with
  | Except.error e => Except.error (SshError.Connection e)
  | Except.ok _ => Except.ok ()

/-- `HopHandler::connect_over_channel` at hop `idx`: bind a loopback bridge
listener, read its address, handshake through it. -/
def connect_over_channel (env : ChainEnv) (idx : Nat) : Except SshError Unit :=
  match env.bindListener idx with
  | Except.error e =>
    Except.error (SshError.Connection (("Failed to bind local listener: ").data ++ e))
  | Except.ok _ =>
  match env.localAddr idx with
  | Except.error e =>
    Except.error (SshError.Connection (("Failed to get local addr: ").data ++ e))
  | Except.ok _ =>
  match env.sshOverTunnel idx with
  | Except.error e =>
    Except.error (SshError.Connection (("SSH over tunnel failed: ").data ++ e))
  | Except.ok _ => Except.ok ()

/-- The tunnel-open error message of `HopHandler::execute`. -/
def tunnelErrMsg (next : HostConfig) (e : Str) : Str :=
  ("Cannot open tunnel to ").data ++ next.hostname ++ [':'] ++ natStr next.port ++
    (" - check if TCP forwarding is enabled on jump host and target is reachable. Error: ").data
    ++ e

/-- `HopHandler::execute` over the hop list `cfg :: rest` starting at
`hop_index = idx`; `isFirst` tells whether the incoming transport is a raw
TCP connection (`transport == None`) or a tunnel channel. -/
def executeChain (env : ChainEnv) : List HostConfig → Nat → Bool → Except SshError Unit
  | [], _, _ => Except.ok ()
  | cfg :: rest, idx, isFirst =>
    match (if isFirst then connectFirst env else connect_over_channel env idx) with
    | Except.error e => Except.error e
    | Except.ok _ =>
      match authenticate env idx cfg with
      | Except.error e => Except.error e
      | Except.ok _ =>
        match rest with
        | [] => Except.ok ()
        | next :: _ =>
          match env.tunnelOpen idx with
          | Except.error e => Except.error (SshError.Connection (tunnelErrMsg next e))
          | Except.ok _ => executeChain env rest (idx + 1) false

/-- `HopHandler::from_config(jumps, target)` followed by `execute(None, ..)`:
the handler list is the jumps followed by the target, hop indices from 0. -/
def from_config_execute (env : ChainEnv) (jumps : List HostConfig)
    (target : HostConfig) : Except SshError Unit :=
  executeChain env (jumps ++ [target]) 0 true

/-- The `"sftp"` arm of `FileTransferManager::create_session` with a
non-empty jump list: run the chain, wrap a chain error as
`ConnectionFailed("Chain connection failed: {e}")`, wrap the handle in an
`SftpSession`, and only then insert the new id into the registry.  Returns
the result together with the registry after the call. -/
def create_session_chain (env : ChainEnv) (jumps : List HostConfig)
    (target : HostConfig) (registry : List Str) (new_id : Str) :
    Except Str Str × List Str :=
  match from_config_execute env jumps target with
  | Except.error e =>
    (Except.error (("Chain connection failed: ").data ++ SshError.display e), registry)
  | Except.ok _ =>
    match env.sftpNew with
    | Except.error e => (Except.error e, registry)
    | Except.ok _ => (Except.ok new_id, registry ++ [new_id])

end Rermius.Ssh

/-! ## File-transfer manager (`src-tauri/src/managers/transfer.rs`) -/

namespace Rermius.Transfer

open Rermius.Core

/-- `TransferProgressEvent` payload. -/
structure TransferProgressEvent where
  transfer_id : Str
  session_id : Str
  direction : Str
  local_path : Str
  remote_path : Str
  file_name : Str
  bytes_transferred : Nat
  total_bytes : Nat
  done : Bool
  deriving DecidableEq, Repr

/-- Rust `base_name.rfind('.')` split: name without extension and extension
including the dot (empty when there is no dot).  The split point is an ASCII
'.' so the byte index of `rfind` is always a character boundary. -/
def splitExt (base_name : Str) : Str × Str :=
  match splitOnceSub base_name.reverse ['.'] with
  | some (revExt, revStem) => (revStem.reverse, '.' :: revExt.reverse)
  | none => (base_name, [])

/-- The `format!("{}{} ({}){}", name_without_ext, "", counter, ext)`
candidate. -/
def candidateName (stem : Str) (counter : Nat) (ext : Str) : Str :=
  stem ++ (" (").data ++ natStr counter ++ (")").data ++ ext

/-- The timestamp fallback
`format!("{}_{}{}", name_without_ext, now_secs, ext)`. -/
def fallbackName (stem : Str) (now : Nat) (ext : Str) : Str :=
  stem ++ ['_'] ++ natStr now ++ ext

/-- The `loop` of `generate_unique_filename`: `fuel` counts the remaining
tries before `counter > 1000` triggers the fallback (1000 tries in total,
counters 1..=1000). -/
def uniqueLoop (names : List Str) (stem ext : Str) (now : Nat) :
    Nat → Nat → Str
  | 0, _ => fallbackName stem now ext
  | fuel + 1, counter =>
    let new_name := candidateName stem counter ext
    if ¬ names.contains (lowerStr new_name) then new_name
    else uniqueLoop names stem ext now fuel (counter + 1)

/-- `FileTransferManager::generate_unique_filename`.  `now` is the seconds
value `SystemTime::now()` would return in the fallback branch (the one
impurity of the source function). -/
def generate_unique_filename (base_name : Str) (existing_files : List FileInfo)
    (now : Nat) : Str :=
  let existing_names :=
    (existing_files.filter (fun f => !f.is_directory)).map (fun f => lowerStr f.name)
  let base_lower := lowerStr base_name
  if ¬ existing_names.contains base_lower then base_name
  else
    let stem_ext := splitExt base_name
    uniqueLoop existing_names stem_ext.1 stem_ext.2 now 1000 1

/-- A directory entry with the fields `generate_unique_filename` inspects;
the remaining `FileInfo` fields are irrelevant to naming. -/
def mkEntry (name : Str) (is_directory : Bool) : FileInfo :=
  { name := name, path := name, size := 0, is_directory := is_directory,
    is_symlink := false, symlink_target := none, permissions := none,
    modified := none, owner := none, group := none }

/-- Split at the LAST '/', returning the parts before and after it. -/
def lastSlashSplit (q : Str) : Option (Str × Str) :=
  match splitOnceSub q.reverse ['/'] with
  | some (revAfter, revBefore) => some (revBefore.reverse, revAfter.reverse)
  | none => none

/-- `std::path::Path::file_name().and_then(|n| n.to_str())` for the Unix-style
paths the manager handles (no "." path components, for which `Path`
normalisation differs). -/
def pathFileName (p : Str) : Option Str :=
  let q := trimEndSlashes p
  if q = [] then none
  else
    let name := match lastSlashSplit q with
      | none => q
      | some (_, after) => after
    if name = (".").data ∨ name = ("..").data then none else some name

/-- `std::path::Path::parent().and_then(|p| p.to_str())` under the same
Unix-style assumptions: drop the last component and any trailing slashes;
`none` for the root, `some ""` for a single relative component. -/
def pathParent (p : Str) : Option Str :=
  let q := trimEndSlashes p
  if q = [] then none
  else
    match lastSlashSplit q with
    | none => some []
    | some (before, _) =>
      let r := trimEndSlashes before
      some (if r = [] then ['/'] else r)

/-- The remote facts one `upload_file` call observes: the local file size,
the destination-directory listing, the `(bytes, total)` pairs the protocol
implementation feeds to the progress callback, the transfer result, and the
clock value for the fallback name. -/
structure UploadEnv where
  localLen : Except Str Nat
  listResult : Except Str (List FileInfo)
  chunks : List (Nat × Nat)
  uploadResult : Except Str Unit
  now : Nat

/-- What an `upload_file` call did: its result, every
`file-transfer-progress` event emitted in order, and the remote path handed
to `upload_file_with_progress` (if reached). -/
structure UploadOutcome where
  result : Except Str Unit
  events : List TransferProgressEvent
  uploadedPath : Option Str
  deriving DecidableEq, Repr

/-- `FileTransferManager::upload_file`. -/
def upload_file (env : UploadEnv) (session_found : Bool)
    (session_id local_path remote_path transfer_id : Str) : UploadOutcome :=
  if ¬ session_found then
    { result := Except.error (("Session not found: ").data ++ session_id),
      events := [], uploadedPath := none }
  else
    match env.localLen with
    | Except.error e =>
      { result := Except.error (("Failed to stat local file: ").data ++ e),
        events := [], uploadedPath := none }
    | Except.ok total_bytes =>
      let original_file_name := (pathFileName remote_path).getD remote_path
      let remote_dir := (pathParent remote_path).getD (("/").data)
      let existing_files := (env.listResult.toOption).getD []
      let unique_file_name := generate_unique_filename original_file_name existing_files env.now
      let final_remote_path :=
        if unique_file_name ≠ original_file_name then
          normalize_remote_path
            (if remote_dir = ("/").data then '/' :: unique_file_name
             else trimEndSlashes remote_dir ++ '/' :: unique_file_name)
        else normalize_remote_path remote_path
      let chunkEvent := fun (bt : Nat × Nat) =>
        { transfer_id := transfer_id, session_id := session_id,
          direction := ("upload").data, local_path := local_path,
          remote_path := final_remote_path, file_name := unique_file_name,
          bytes_transferred := bt.1,
          total_bytes := if bt.2 > 0 then bt.2 else total_bytes,
          done := false : TransferProgressEvent }
      let interEvents := env.chunks.map chunkEvent
      match env.uploadResult with
      | Except.error e =>
        { result := Except.error e, events := interEvents,
          uploadedPath := some final_remote_path }
      | Except.ok _ =>
        { result := Except.ok (),
          events := interEvents ++
            [{ transfer_id := transfer_id, session_id := session_id,
               direction := ("upload").data, local_path := local_path,
               remote_path := final_remote_path, file_name := unique_file_name,
               bytes_transferred := total_bytes, total_bytes := total_bytes,
               done := true }],
          uploadedPath := some final_remote_path }

/-- The remote facts one `download_file` call observes. -/
structure DownloadEnv where
  statResult : Except Str FileInfo
  chunks : List (Nat × Nat)
  downloadResult : Except Str Unit

/-- What a `download_file` call did. -/
structure DownloadOutcome where
  result : Except Str Unit
  events : List TransferProgressEvent
  deriving DecidableEq, Repr

/-- `FileTransferManager::download_file`. -/
def download_file (env : DownloadEnv) (session_found : Bool)
    (session_id remote_path local_path transfer_id : Str) : DownloadOutcome :=
  if ¬ session_found then
    { result := Except.error (("Session not found: ").data ++ session_id),
      events := [] }
  else
    match env.statResult with
    | Except.error e => { result := Except.error e, events := [] }
    | Except.ok file_info =>
      let total_bytes := file_info.size
      let chunkEvent := fun (bt : Nat × Nat) =>
        { transfer_id := transfer_id, session_id := session_id,
          direction := ("download").data, local_path := local_path,
          remote_path := remote_path, file_name := file_info.name,
          bytes_transferred := bt.1,
          total_bytes := if bt.2 > 0 then bt.2 else total_bytes,
          done := false : TransferProgressEvent }
      let interEvents := env.chunks.map chunkEvent
      match env.downloadResult with
      | Except.error e => { result := Except.error e, events := interEvents }
      | Except.ok _ =>
        { result := Except.ok (),
          events := interEvents ++
            [{ transfer_id := transfer_id, session_id := session_id,
               direction := ("download").data, local_path := local_path,
               remote_path := remote_path, file_name := file_info.name,
               bytes_transferred := total_bytes, total_bytes := total_bytes,
               done := true }] }

/-- `FileTransferManager::close_session`: remove the id if present (the
variants only differ in what they log), always Ok, no progress event. -/
def transfer_close_session {α : Type} (sessions : List (Str × α))
    (session_id : Str) :
    Except Str Unit × List (Str × α) × List TransferProgressEvent :=
  match sessions.lookup session_id with
  | some _ =>
    (Except.ok (), sessions.filter (fun p => decide (p.1 ≠ session_id)), [])
  | none => (Except.ok (), sessions, [])

end Rermius.Transfer

/-! ## Terminal manager close (`src-tauri/src/managers/terminal.rs`) -/

namespace Rermius.Managers

/-- `TerminalExitEvent` from `core/terminal_events.rs`. -/
structure TerminalExitEvent where
  exit_code : Int
  reason : Option Str
  deriving DecidableEq, Repr

/-- `TerminalExitEvent::user_closed()`. -/
def TerminalExitEvent.user_closed : TerminalExitEvent :=
  { exit_code := 0, reason := some (("user-closed").data) }

/-- A registered terminal session, reduced to what `close_session` observes:
the result of its `close()`. -/
structure TermSession where
  closeResult : Except Str Unit
  deriving DecidableEq, Repr

/-- One observable action of `TerminalManager::close_session`. -/
inductive CloseAction
  | emitExit (channel : Str) (event : TerminalExitEvent)
  | invokeClose
  deriving DecidableEq, Repr

/-- `TerminalManager::close_session`: remove under the write lock, emit the
synthetic user-closed exit event on `terminal-exit:<id>`, then invoke the
session's close (whose error propagates); an unknown id only logs and
returns Ok. -/
def terminal_close_session (sessions : List (Str × TermSession))
    (session_id : Str) :
    Except Str Unit × List (Str × TermSession) × List CloseAction :=
  match sessions.lookup session_id with
  | some session =>
    (session.closeResult,
     sessions.filter (fun p => decide (p.1 ≠ session_id)),
     [CloseAction.emitExit (("terminal-exit:").data ++ session_id)
        TerminalExitEvent.user_closed,
      CloseAction.invokeClose])
  | none => (Except.ok (), sessions, [])

end Rermius.Managers

/-! ## Theorems: Telnet codec -/

namespace Rermius.Telnet

lemma processByte_data_lit (proto : TelnetProtocol) (resp clean : List Nat)
    (sb : Nat) (naws : Bool) (b : Nat) (hbne : b ≠ IAC) :
    processByte ⟨proto, resp, clean, ParseState.Data, sb, naws⟩ b
      = ⟨proto, resp, clean ++ [b], ParseState.Data, sb, naws⟩ := by
  simp [processByte, hbne]

lemma processByte_data_iac (proto : TelnetProtocol) (resp clean : List Nat)
    (sb : Nat) (naws : Bool) :
    processByte ⟨proto, resp, clean, ParseState.Data, sb, naws⟩ IAC
      = ⟨proto, resp, clean, ParseState.Iac, sb, naws⟩ := by
  simp [processByte]

lemma processByte_iac_iac (proto : TelnetProtocol) (resp clean : List Nat)
    (sb : Nat) (naws : Bool) :
    processByte ⟨proto, resp, clean, ParseState.Iac, sb, naws⟩ IAC
      = ⟨proto, resp, clean ++ [IAC], ParseState.Data, sb, naws⟩ := by
  simp [processByte]

lemma foldl_processByte_renderBlocks (bs : List DataBlock)
    (hb : ∀ b, DataBlock.lit b ∈ bs → b ≠ IAC) :
    ∀ (proto : TelnetProtocol) (resp clean : List Nat) (sb : Nat) (naws : Bool),
      (renderBlocks bs).foldl processByte
        ⟨proto, resp, clean, ParseState.Data, sb, naws⟩
      = ⟨proto, resp, clean ++ unescBlocks bs, ParseState.Data, sb, naws⟩ := by
  induction bs with
  | nil => intro proto resp clean sb naws; simp [renderBlocks, unescBlocks]
  | cons hd tl ih =>
    intro proto resp clean sb naws
    cases hd with
    | lit b =>
      have hbne : b ≠ IAC := hb b (List.mem_cons_self _ _)
      have htl : ∀ b, DataBlock.lit b ∈ tl → b ≠ IAC := by
        intro b hmem; exact hb b (List.mem_cons_of_mem _ hmem)
      rw [renderBlocks, List.foldl_cons, processByte_data_lit _ _ _ _ _ _ hbne,
        ih htl]
      simp [unescBlocks]
    | escIac =>
      have htl : ∀ b, DataBlock.lit b ∈ tl → b ≠ IAC := by
        intro b hmem; exact hb b (List.mem_cons_of_mem _ hmem)
      rw [renderBlocks, List.foldl_cons, processByte_data_iac, List.foldl_cons,
        processByte_iac_iac, ih htl]
      simp [unescBlocks]

/-- C2: from the Data state, IAC WILL opt sets the echo/SGA flag and answers
IAC DO opt for ECHO and SUPPRESS-GO-AHEAD and answers IAC DONT opt otherwise;
IAC DO opt sets the NAWS flag, answers IAC WILL NAWS and reports
naws-just-accepted for NAWS, answers IAC WILL opt for TERMINAL-TYPE and
SUPPRESS-GO-AHEAD, and answers IAC WONT opt otherwise; in every case the
cleaned output is empty. -/
theorem telnet_negotiation_responses (proto : TelnetProtocol) (opt : Nat)
    (hopt : opt ≤ 255) :
    (process_data proto [IAC, WILL, opt] =
      (if opt = OPT_ECHO then
        ([IAC, DO, OPT_ECHO], ([] : List Nat), false, { proto with echo_enabled := true })
       else if opt = OPT_SGA then
        ([IAC, DO, OPT_SGA], [], false, { proto with sga_enabled := true })
       else
        ([IAC, DONT, opt], [], false, proto))) ∧
    (process_data proto [IAC, DO, opt] =
      (if opt = OPT_NAWS then
        ([IAC, WILL, OPT_NAWS], ([] : List Nat), true, { proto with naws_enabled := true })
       else if opt = OPT_TTYPE then
        ([IAC, WILL, OPT_TTYPE], [], false, proto)
       else if opt = OPT_SGA then
        ([IAC, WILL, OPT_SGA], [], false, { proto with sga_enabled := true })
       else
        ([IAC, WONT, opt], [], false, proto))) := by
  constructor
  · by_cases h1 : opt = OPT_ECHO
    · subst h1; simp +decide [process_data, processByte, OPT_ECHO]
    · by_cases h3 : opt = OPT_SGA
      · subst h3; simp +decide [process_data, processByte, OPT_SGA, OPT_ECHO]
      · have h1n : opt ≠ 1 := by simpa [OPT_ECHO] using h1
        have h3n : opt ≠ 3 := by simpa [OPT_SGA] using h3
        simp +decide [process_data, processByte, OPT_ECHO, OPT_SGA, h1n, h3n, h1, h3]
  · by_cases h31 : opt = OPT_NAWS
    · subst h31; simp +decide [process_data, processByte, OPT_NAWS]
    · by_cases h24 : opt = OPT_TTYPE
      · subst h24; simp +decide [process_data, processByte, OPT_TTYPE, OPT_NAWS]
      · by_cases h3 : opt = OPT_SGA
        · subst h3; simp +decide [process_data, processByte, OPT_SGA, OPT_NAWS, OPT_TTYPE]
        · have h31n : opt ≠ 31 := by simpa [OPT_NAWS] using h31
          have h24n : opt ≠ 24 := by simpa [OPT_TTYPE] using h24
          have h3n : opt ≠ 3 := by simpa [OPT_SGA] using h3
          simp +decide [process_data, processByte, OPT_NAWS, OPT_TTYPE, OPT_SGA,
            h31n, h24n, h3n, h31, h24, h3]

/-- Witness for `telnet_negotiation_responses` at a fresh protocol and opt 1. -/
theorem telnet_negotiation_responses_witness :
    process_data TelnetProtocol.new [IAC, WILL, (1 : Nat)] =
      ([IAC, DO, OPT_ECHO], [], false, { TelnetProtocol.new with echo_enabled := true }) := by
  have h := (telnet_negotiation_responses TelnetProtocol.new 1 (by decide)).1
  simpa using h

/-- C8 counterexample: the input IAC WILL ECHO IAC IAC contains the escaped-IAC
sequence 0xFF 0xFF, yet processing it does produce negotiation bytes, refuting
the claim that no negotiation bytes are produced for any input containing an
escaped IAC. -/
theorem escaped_iac_counterexample :
    containsSub [IAC, WILL, OPT_ECHO, IAC, IAC] [IAC, IAC] = true ∧
    (process_data TelnetProtocol.new [IAC, WILL, OPT_ECHO, IAC, IAC]).2.1 = [IAC] ∧
    (process_data TelnetProtocol.new [IAC, WILL, OPT_ECHO, IAC, IAC]).1
      = [IAC, DO, OPT_ECHO] ∧
    (process_data TelnetProtocol.new [IAC, WILL, OPT_ECHO, IAC, IAC]).1 ≠ [] := by
  refine ⟨by decide, by decide, by decide, by decide⟩

/-- C8 (amended): for any input built only of plain data bytes and escaped-IAC
pairs, every escaped pair contributes exactly one literal 0xFF to the cleaned
output (the cleaned output is the input with each 0xFF 0xFF collapsed to one
0xFF), no negotiation bytes are produced, no NAWS acceptance is reported, and
the negotiation flags are unchanged. -/
theorem escaped_iac_amended (proto : TelnetProtocol) (bs : List DataBlock)
    (hb : ∀ b, DataBlock.lit b ∈ bs → b ≠ IAC) :
    process_data proto (renderBlocks bs) = ([], unescBlocks bs, false, proto) := by
  unfold process_data
  rw [foldl_processByte_renderBlocks bs hb]
  simp

/-- Witness for `escaped_iac_amended` on the bytes 0x41 0xFF 0xFF 0x42. -/
theorem escaped_iac_amended_witness :
    process_data TelnetProtocol.new
      (renderBlocks [DataBlock.lit 0x41, DataBlock.escIac, DataBlock.lit 0x42])
      = ([], [0x41, IAC, 0x42], false, TelnetProtocol.new) :=
  escaped_iac_amended TelnetProtocol.new _ (by
    intro b hmem
    simp only [List.mem_cons, List.not_mem_nil, or_false, DataBlock.lit.injEq,
      reduceCtorEq, false_or] at hmem
    rcases hmem with rfl | rfl <;> decide)

end Rermius.Telnet

/-! ## Theorems: Telnet auto-login -/

namespace Rermius.Login

/-- C5: with a configured username, a login-prompt match while AwaitingLogin
emits exactly the bytes of the username followed by CR LF and advances to
AwaitingPassword when a password is configured or to Authenticated otherwise;
a password-prompt match while AwaitingPassword emits exactly the password
bytes followed by CR LF and advances to Authenticated.  Concretely: username
"admin" and no password, feeding "login: " yields "admin\r\n" and state
Authenticated; username "admin" and password "secret", feeding "login: " then
"Password: " yields "admin\r\n" then "secret\r\n" with intermediate state
AwaitingPassword. -/
theorem autologin_prompt_flow :
    (∀ (al : AutoLogin) (data u buf2 : Str),
      al.state = LoginState.AwaitingLogin →
      al.username = some u →
      truncate_buffer (al.buffer ++ data) al.max_buffer_size = Except.ok buf2 →
      detect_prompt buf2 = some PromptType.Login →
      al.process data =
        Except.ok (some (utf8Encode (u ++ ("\r\n".data))),
          { al with
              state := if al.password.isSome then LoginState.AwaitingPassword
                       else LoginState.Authenticated,
              buffer := [] })) ∧
    (∀ (al : AutoLogin) (data p buf2 : Str),
      al.state = LoginState.AwaitingPassword →
      al.password = some p →
      truncate_buffer (al.buffer ++ data) al.max_buffer_size = Except.ok buf2 →
      detect_prompt buf2 = some PromptType.Password →
      al.process data =
        Except.ok (some (utf8Encode (p ++ ("\r\n".data))),
          { al with state := LoginState.Authenticated, buffer := [] })) ∧
    ((AutoLogin.new (some ("admin".data)) none).process ("login: ".data) =
      Except.ok (some (utf8Encode ("admin\r\n".data)),
        { AutoLogin.new (some ("admin".data)) none with
            state := LoginState.Authenticated })) ∧
    ((AutoLogin.new (some ("admin".data)) (some ("secret".data))).process ("login: ".data) =
      Except.ok (some (utf8Encode ("admin\r\n".data)),
        { AutoLogin.new (some ("admin".data)) (some ("secret".data)) with
            state := LoginState.AwaitingPassword })) ∧
    (({ AutoLogin.new (some ("admin".data)) (some ("secret".data)) with
          state := LoginState.AwaitingPassword }).process ("Password: ".data) =
      Except.ok (some (utf8Encode ("secret\r\n".data)),
        { AutoLogin.new (some ("admin".data)) (some ("secret".data)) with
            state := LoginState.Authenticated })) := by
  refine ⟨?_, ?_, by decide, by decide, by decide⟩
  · intro al data u buf2 hs hu htr hdet
    simp [AutoLogin.process, hs, hu, htr, hdet]
  · intro al data p buf2 hs hp htr hdet
    simp [AutoLogin.process, hs, hp, htr, hdet]

/-- Witness for `autologin_prompt_flow`, applying the general login-prompt part
at the concrete "admin"/"secret" handler and input "login: ". -/
theorem autologin_prompt_flow_witness :
    (AutoLogin.new (some ("admin".data)) (some ("secret".data))).process ("login: ".data) =
      Except.ok (some (utf8Encode (("admin".data) ++ ("\r\n".data))),
        { AutoLogin.new (some ("admin".data)) (some ("secret".data)) with
            state := LoginState.AwaitingPassword, buffer := [] }) := by
  have h := autologin_prompt_flow.1 (AutoLogin.new (some ("admin".data)) (some ("secret".data)))
    ("login: ".data) ("admin".data) ("login: ".data) (by decide) (by decide)
    (by decide) (by decide)
  simpa using h

set_option maxRecDepth 8000

/-- C10: `AutoLogin::process` is NOT total — the buffer truncation byte-slices
the UTF-8 buffer at byte offset len − 512, and when that offset falls inside a
multi-byte character the slice panics.  Feeding 513 Euro-sign characters
(3 UTF-8 bytes each, 1539 bytes total, slice offset 1027 = 342·3 + 1) to a
fresh handler with username "admin" hits the panic,
modelled here as `Except.error`. -/
theorem autologin_truncation_panics :
    (AutoLogin.new (some ("admin".data)) none).process (List.replicate 513 '€') =
      Except.error () ∧
    byteLen (List.replicate 513 '€') = 1539 := by
  constructor
  · decide
  · decide

end Rermius.Login

/-! ## Theorems: FTP LIST parser -/

namespace Rermius.Ftp

open Rermius.Core

lemma splitOnceSub_isSome {α : Type} [DecidableEq α] (s pat : List α)
    (h : containsSub s pat = true) : (splitOnceSub s pat).isSome = true := by
  induction s with
  | nil =>
    simp only [containsSub] at h
    simp [splitOnceSub, List.isEmpty_iff.mp h]
  | cons c cs ih =>
    by_cases hs : startsWithL pat (c :: cs) = true
    · simp [splitOnceSub, hs]
    · have hcs : containsSub cs pat = true := by
        simp only [containsSub, Bool.or_eq_true] at h
        tauto
      have hih := ih hcs
      rcases hopt : splitOnceSub cs pat with _ | ⟨l, r⟩
      · rw [hopt] at hih; simp at hih
      · simp [splitOnceSub, hs, hopt]

/-- C4 counterexample: a line with exactly 9 whitespace-separated fields whose
permissions field starts with '-' is nevertheless skipped, because its
permissions field is shorter than 10 bytes — refuting "accepts exactly lines
with at least 9 fields whose permissions field's first character is in
{d,-,l,c,b,p,s}". -/
theorem ftp_list_counterexample :
    (splitWs (rustTrim ("- 1 u g 5 Jan 15 10:30 nm".data))).length = 9 ∧
    ((splitWs (rustTrim ("- 1 u g 5 Jan 15 10:30 nm".data))).getD 0 []).head? = some '-' ∧
    parse_ftp_list_line ("- 1 u g 5 Jan 15 10:30 nm".data) ("/".data) = none := by
  refine ⟨by decide, by decide, by decide⟩

/-- C4 (amended): the parser skips (returns none for, rather than erroring on)
every line that does not have ≥ 9 whitespace-separated fields, a permissions
field of at least 10 bytes whose first character is in {d,-,l,c,b,p,s}, and a
derived name other than empty, "." and ".."; it accepts every line satisfying
all of these.  For an accepted line: is_directory holds iff the first
permissions character is 'd', size is parsed from field index 4 (0 on parse
failure), the name joins all fields from index 8 on with single spaces,
symlink names are split at the first " -> " to recover the link target, and
the modified-date substring (fields 5..7) is passed through uninterpreted.
The example line "drwxr-xr-x 2 user group 4096 Jan 15 10:30 dirname" yields
is_directory = true, size = 4096, name = "dirname". -/
theorem ftp_list_line_parsing :
    (∀ line base_path,
      parse_ftp_list_line line base_path
        = parseListParts (splitWs (rustTrim line)) base_path) ∧
    (∀ parts base_path, parts.length ≤ 8 → parseListParts parts base_path = none) ∧
    (∀ parts base_path info, parseListParts parts base_path = some info →
      9 ≤ parts.length ∧
      10 ≤ byteLen (parts.getD 0 []) ∧
      ((parts.getD 0 []).head? = some 'd' ∨ (parts.getD 0 []).head? = some '-' ∨
        (parts.getD 0 []).head? = some 'l' ∨ (parts.getD 0 []).head? = some 'c' ∨
        (parts.getD 0 []).head? = some 'b' ∨ (parts.getD 0 []).head? = some 'p' ∨
        (parts.getD 0 []).head? = some 's') ∧
      info.is_directory = ((parts.getD 0 []).head? == some 'd') ∧
      info.is_symlink = ((parts.getD 0 []).head? == some 'l') ∧
      info.size = (parseU64 (parts.getD 4 [])).getD 0 ∧
      info.permissions = some (parts.getD 0 []) ∧
      info.modified = some (parts.getD 5 [] ++ [' '] ++ parts.getD 6 []
        ++ [' '] ++ parts.getD 7 []) ∧
      (info.name, info.symlink_target)
        = symlinkNameTarget ((parts.getD 0 []).head? == some 'l')
            (joinSpace (parts.drop 8)) ∧
      info.name ≠ [] ∧ info.name ≠ (".".data) ∧ info.name ≠ ("..".data)) ∧
    (∀ parts base_path,
      9 ≤ parts.length →
      10 ≤ byteLen (parts.getD 0 []) →
      ((parts.getD 0 []).head? = some 'd' ∨ (parts.getD 0 []).head? = some '-' ∨
        (parts.getD 0 []).head? = some 'l' ∨ (parts.getD 0 []).head? = some 'c' ∨
        (parts.getD 0 []).head? = some 'b' ∨ (parts.getD 0 []).head? = some 'p' ∨
        (parts.getD 0 []).head? = some 's') →
      (symlinkNameTarget ((parts.getD 0 []).head? == some 'l')
          (joinSpace (parts.drop 8))).1 ≠ [] →
      (symlinkNameTarget ((parts.getD 0 []).head? == some 'l')
          (joinSpace (parts.drop 8))).1 ≠ (".".data) →
      (symlinkNameTarget ((parts.getD 0 []).head? == some 'l')
          (joinSpace (parts.drop 8))).1 ≠ ("..".data) →
      (parseListParts parts base_path).isSome = true) ∧
    (parse_ftp_list_line ("drwxr-xr-x 2 user group 4096 Jan 15 10:30 dirname".data)
        ("/".data)
      = some { name := ("dirname".data), path := ("/dirname".data), size := 4096,
               is_directory := true, is_symlink := false, symlink_target := none,
               permissions := some ("drwxr-xr-x".data),
               modified := some ("Jan 15 10:30".data),
               owner := some ("user".data), group := some ("group".data) }) ∧
    (parse_ftp_list_line ("lrwxrwxrwx 1 user group 4 Jan 15 10:30 link -> tgt dir".data)
        ("/".data)
      = some { name := ("link".data), path := ("/link".data), size := 4,
               is_directory := false, is_symlink := true,
               symlink_target := some ("tgt dir".data),
               permissions := some ("lrwxrwxrwx".data),
               modified := some ("Jan 15 10:30".data),
               owner := some ("user".data), group := some ("group".data) }) := by
  refine ⟨?_, ?_, ?_, ?_, by decide, by decide⟩
  · intro line base_path
    by_cases h0 : rustTrim line = []
    · simp only [parse_ftp_list_line, if_pos h0, h0]
      rfl
    · simp only [parse_ftp_list_line, if_neg h0]
  · intro parts base_path h
    simp only [parseListParts]
    rw [if_pos (by omega)]
  · intro parts base_path info h
    simp only [parseListParts] at h
    by_cases h9 : parts.length < 9
    · rw [if_pos h9] at h; exact Option.noConfusion h
    rw [if_neg h9] at h
    by_cases h10 : byteLen (parts.getD 0 []) < 10
    · rw [if_pos h10] at h; exact Option.noConfusion h
    rw [if_neg h10] at h
    by_cases hset : ¬ ((parts.getD 0 []).head? = some 'd' ∨ (parts.getD 0 []).head? = some '-' ∨
        (parts.getD 0 []).head? = some 'l' ∨ (parts.getD 0 []).head? = some 'c' ∨
        (parts.getD 0 []).head? = some 'b' ∨ (parts.getD 0 []).head? = some 'p' ∨
        (parts.getD 0 []).head? = some 's')
    · rw [if_pos hset] at h; exact Option.noConfusion h
    rw [if_neg hset] at h
    by_cases hname : ((symlinkNameTarget ((parts.getD 0 []).head? == some 'l')
          (joinSpace (parts.drop 8))).1 = [] ∨
        (symlinkNameTarget ((parts.getD 0 []).head? == some 'l')
          (joinSpace (parts.drop 8))).1 = (".".data) ∨
        (symlinkNameTarget ((parts.getD 0 []).head? == some 'l')
          (joinSpace (parts.drop 8))).1 = ("..".data))
    · rw [if_pos hname] at h; exact Option.noConfusion h
    rw [if_neg hname] at h
    rw [if_pos (show parts.length > 7 by omega)] at h
    have hinfo := Option.some.inj h
    subst hinfo
    refine ⟨by omega, by omega, not_not.mp hset, rfl, rfl, rfl, rfl, rfl, rfl, ?_, ?_, ?_⟩ <;>
      · simp only [not_or] at hname
        tauto
  · intro parts base_path h9 h10 hset hn1 hn2 hn3
    simp only [parseListParts]
    rw [if_neg (by omega), if_neg (by omega), if_neg (not_not_intro hset),
      if_neg (by simp only [not_or]; exact ⟨hn1, hn2, hn3⟩)]
    simp

end Rermius.Ftp

/-- Witness for `ftp_list_line_parsing`, applying its acceptance part to the
fields of the example line. -/
theorem ftp_list_line_parsing_witness :
    (Rermius.Ftp.parseListParts
      (Rermius.Ftp.splitWs (("drwxr-xr-x 2 user group 4096 Jan 15 10:30 dirname").data))
      (("/").data)).isSome = true :=
  Rermius.Ftp.ftp_list_line_parsing.2.2.2.1 _ _ (by decide) (by decide) (by decide)
    (by decide) (by decide) (by decide)

/-! ## Theorems: SFTP chmod -/

namespace Rermius.Sftp

/-- C6: when the initial metadata read succeeds with permission value p (0 when
absent) and the metadata write succeeds, chmod writes back exactly
(p AND NOT 0o777) OR (mode AND 0o777) — preserving the non-permission
file-type bits and replacing only the low 9 bits — while carrying over size,
uid, gid, atime and mtime; and the result is Ok regardless of the verification
read (error, mismatch, or match), so verification never fails a chmod. -/
theorem sftp_chmod_preserves_type_bits (env : ChmodEnv) (mode : Nat)
    (attrs : FileAttributes)
    (h0 : env.metadata0 = Except.ok attrs)
    (hset : env.set_metadata
      { attrs with permissions := some (((attrs.permissions.getD 0) &&& 4294966784) ||| (mode &&& 511)) }
      = Except.ok ()) :
    chmod env mode =
      { written := some { attrs with permissions := some (((attrs.permissions.getD 0) &&& 4294966784) ||| (mode &&& 511)) },
        result := Except.ok () } := by
  simp only [chmod, h0]
  rw [show ({ permissions := some (((attrs.permissions.getD 0) &&& 4294966784) ||| (mode &&& 511)),
              size := attrs.size, uid := attrs.uid, gid := attrs.gid,
              atime := attrs.atime, mtime := attrs.mtime } : FileAttributes)
    = { attrs with permissions := some (((attrs.permissions.getD 0) &&& 4294966784) ||| (mode &&& 511)) } from rfl]
  rw [hset]
  rcases env.metadata1 with e | verify
  · rfl
  · exact ite_self _

/-- Witness for `sftp_chmod_preserves_type_bits`: a regular file with mode
0o100644 (33188) chmodded to 0o755 (493) is written back as 0o100755 (33261)
and succeeds although the verification read errors. -/
theorem sftp_chmod_preserves_type_bits_witness :
    chmod
      { metadata0 := Except.ok
          { permissions := some 33188, size := some 10,
            uid := some 1000, gid := some 1000, atime := some 1, mtime := some 2 },
        set_metadata := fun _ => Except.ok (),
        metadata1 := Except.error (("verification failed").data) }
      493
    = { written := some
          { permissions := some 33261, size := some 10,
            uid := some 1000, gid := some 1000, atime := some 1, mtime := some 2 },
        result := Except.ok () } := by
  have h := sftp_chmod_preserves_type_bits
    { metadata0 := Except.ok
        { permissions := some 33188, size := some 10,
          uid := some 1000, gid := some 1000, atime := some 1, mtime := some 2 },
      set_metadata := fun _ => Except.ok (),
      metadata1 := Except.error (("verification failed").data) }
    493
    { permissions := some 33188, size := some 10,
      uid := some 1000, gid := some 1000, atime := some 1, mtime := some 2 }
    rfl rfl
  simpa using h

end Rermius.Sftp

/-! ## Theorems: manager close_session (idempotence and event discipline) -/

namespace Rermius.Managers

/-- C9: closing an id absent from the terminal registry or from the
file-transfer registry returns Ok, leaves the registry unchanged and emits no
terminal-exit / file-transfer-progress event; closing a present terminal id
removes exactly that id, emits the synthetic user-closed exit event on
`terminal-exit:<id>` and only then invokes the session's close, whose result
becomes the call's result. -/
theorem close_session_idempotent :
    (∀ (sessions : List (Str × TermSession)) (session_id : Str),
      sessions.lookup session_id = none →
      terminal_close_session sessions session_id = (Except.ok (), sessions, [])) ∧
    (∀ (sessions : List (Str × Unit)) (session_id : Str),
      sessions.lookup session_id = none →
      Rermius.Transfer.transfer_close_session sessions session_id
        = (Except.ok (), sessions, [])) ∧
    (∀ (sessions : List (Str × TermSession)) (session_id : Str) (s : TermSession),
      sessions.lookup session_id = some s →
      terminal_close_session sessions session_id
        = (s.closeResult,
           sessions.filter (fun p => decide (p.1 ≠ session_id)),
           [CloseAction.emitExit ((("terminal-exit:").data) ++ session_id)
              TerminalExitEvent.user_closed,
            CloseAction.invokeClose])) := by
  refine ⟨?_, ?_, ?_⟩
  · intro sessions session_id h
    simp [terminal_close_session, h]
  · intro sessions session_id h
    simp [Rermius.Transfer.transfer_close_session, h]
  · intro sessions session_id s h
    simp [terminal_close_session, h]

/-- Witness for `close_session_idempotent`: closing the unknown id "b" in a
one-entry terminal registry succeeds, keeps the entry and emits nothing. -/
theorem close_session_idempotent_witness :
    terminal_close_session [((("a").data), ⟨Except.ok ()⟩)] (("b").data)
      = (Except.ok (), [((("a").data), ⟨Except.ok ()⟩)], []) :=
  close_session_idempotent.1 [((("a").data), ⟨Except.ok ()⟩)] (("b").data) (by decide)

end Rermius.Managers

/-! ## Theorems: transfer progress events -/

namespace Rermius.Transfer

/-- C7: a download or upload that returns Ok emitted a non-empty event
sequence whose last event has done = true and bytes_transferred equal to
total_bytes, and every earlier (per-chunk) event has done = false. -/
theorem transfer_final_progress_event :
    (∀ (env : DownloadEnv) (found : Bool) (sid rp lp tid : Str),
      (download_file env found sid rp lp tid).result = Except.ok () →
      (download_file env found sid rp lp tid).events ≠ [] ∧
      ((download_file env found sid rp lp tid).events.getLast?.map
        (fun e => (e.done, decide (e.bytes_transferred = e.total_bytes)))
        = some (true, true)) ∧
      (∀ e ∈ (download_file env found sid rp lp tid).events.dropLast,
        e.done = false)) ∧
    (∀ (env : UploadEnv) (found : Bool) (sid lp rp tid : Str),
      (upload_file env found sid lp rp tid).result = Except.ok () →
      (upload_file env found sid lp rp tid).events ≠ [] ∧
      ((upload_file env found sid lp rp tid).events.getLast?.map
        (fun e => (e.done, decide (e.bytes_transferred = e.total_bytes)))
        = some (true, true)) ∧
      (∀ e ∈ (upload_file env found sid lp rp tid).events.dropLast,
        e.done = false)) := by
  constructor
  · intro env found sid rp lp tid hok
    cases found with
    | false => simp [download_file] at hok
    | true =>
      rcases hstat : env.statResult with e | info
      · simp [download_file, hstat] at hok
      · rcases hdl : env.downloadResult with e | u
        · simp [download_file, hstat, hdl] at hok
        · refine ⟨?_, ?_, ?_⟩
          · simp [download_file, hstat, hdl]
          · simp [download_file, hstat, hdl, List.getLast?_concat]
          · intro ev hmem
            simp only [download_file, hstat, hdl] at hmem
            rw [if_neg (by simp), List.dropLast_concat] at hmem
            obtain ⟨bt, _, rfl⟩ := List.mem_map.mp hmem
            rfl
  · intro env found sid lp rp tid hok
    cases found with
    | false => simp [upload_file] at hok
    | true =>
      rcases hlen : env.localLen with e | n
      · simp [upload_file, hlen] at hok
      · rcases hup : env.uploadResult with e | u
        · simp [upload_file, hlen, hup] at hok
        · refine ⟨?_, ?_, ?_⟩
          · simp [upload_file, hlen, hup]
          · simp [upload_file, hlen, hup, List.getLast?_concat]
          · intro ev hmem
            simp only [upload_file, hlen, hup] at hmem
            rw [if_neg (by simp), List.dropLast_concat] at hmem
            obtain ⟨bt, _, rfl⟩ := List.mem_map.mp hmem
            rfl

/-- Witness for `transfer_final_progress_event`: a two-chunk download of a
10-byte file ends with a done event carrying 10 of 10 bytes. -/
theorem transfer_final_progress_event_witness :
    (download_file
      { statResult := Except.ok (mkEntry (("f.txt").data) false),
        chunks := [(4, 0), (8, 0)], downloadResult := Except.ok () }
      true (("s").data) (("/f.txt").data) (("/tmp/f.txt").data) (("t").data)).events ≠ [] :=
    (transfer_final_progress_event.1
      { statResult := Except.ok (mkEntry (("f.txt").data) false),
        chunks := [(4, 0), (8, 0)], downloadResult := Except.ok () }
      true (("s").data) (("/f.txt").data) (("/tmp/f.txt").data) (("t").data) rfl).1

end Rermius.Transfer

/-! ## Theorems: upload duplicate-name resolution -/

namespace Rermius.Transfer

lemma uniqueLoop_eq_candidate (names : List Str) (stem ext : Str) (now : Nat) :
    ∀ (fuel counter N : Nat), counter ≤ N → N < counter + fuel →
      names.contains (lowerStr (candidateName stem N ext)) = false →
      (∀ M, counter ≤ M → M < N →
        names.contains (lowerStr (candidateName stem M ext)) = true) →
      uniqueLoop names stem ext now fuel counter = candidateName stem N ext := by
  intro fuel
  induction fuel with
  | zero => intro counter N h1 h2 _ _; omega
  | succ fuel ih =>
    intro counter N h1 h2 hfree hcoll
    by_cases hc : counter = N
    · subst hc
      simp only [uniqueLoop]
      rw [if_pos (by rw [hfree]; decide)]
    · have hlt : counter < N := lt_of_le_of_ne h1 hc
      have hcol := hcoll counter le_rfl hlt
      simp only [uniqueLoop]
      rw [if_neg (by rw [hcol]; decide)]
      exact ih (counter + 1) N hlt (by omega) hfree
        (fun M hM1 hM2 => hcoll M (by omega) hM2)

lemma uniqueLoop_exhausted (names : List Str) (stem ext : Str) (now : Nat) :
    ∀ (fuel counter : Nat),
      (∀ M, counter ≤ M → M < counter + fuel →
        names.contains (lowerStr (candidateName stem M ext)) = true) →
      uniqueLoop names stem ext now fuel counter = fallbackName stem now ext := by
  intro fuel
  induction fuel with
  | zero => intro counter _; rfl
  | succ fuel ih =>
    intro counter h
    simp only [uniqueLoop]
    rw [if_neg (by rw [h counter le_rfl (by omega)]; decide)]
    exact ih (counter + 1) (fun M hM1 hM2 => h M (by omega) (by omega))

/-- C3: uploading never reuses a case-insensitively colliding name.  With
`names` the lowercased names of the existing non-directory entries: a
non-colliding original name is kept unchanged; when the original collides and
N is the smallest counter in 1..=1000 whose candidate "stem (N)ext" is free,
that candidate is returned and it does not collide; when all 1000 candidates
collide, the timestamp fallback "stem_nowext" is returned.  Concretely,
"report.txt" uploaded next to an existing "Report.TXT" becomes
"report (1).txt", and next to "report.txt" and "report (1).txt" it becomes
"report (2).txt".  At the upload level the possibly-renamed path is exactly
the path handed to the protocol upload, and the final progress event reports
that path and the collision-free name. -/
theorem upload_unique_filename :
    (∀ (base_name : Str) (existing_files : List Rermius.Core.FileInfo) (now : Nat),
      ((existing_files.filter (fun f => !f.is_directory)).map
          (fun f => lowerStr f.name)).contains (lowerStr base_name) = false →
      generate_unique_filename base_name existing_files now = base_name) ∧
    (∀ (base_name : Str) (existing_files : List Rermius.Core.FileInfo) (now N : Nat),
      (((existing_files.filter (fun f => !f.is_directory)).map
          (fun f => lowerStr f.name)).contains (lowerStr base_name) = true) →
      1 ≤ N → N ≤ 1000 →
      ((existing_files.filter (fun f => !f.is_directory)).map
          (fun f => lowerStr f.name)).contains
        (lowerStr (candidateName (splitExt base_name).1 N (splitExt base_name).2))
        = false →
      (∀ M, 1 ≤ M → M < N →
        ((existing_files.filter (fun f => !f.is_directory)).map
            (fun f => lowerStr f.name)).contains
          (lowerStr (candidateName (splitExt base_name).1 M (splitExt base_name).2))
          = true) →
      generate_unique_filename base_name existing_files now
        = candidateName (splitExt base_name).1 N (splitExt base_name).2 ∧
      ((existing_files.filter (fun f => !f.is_directory)).map
          (fun f => lowerStr f.name)).contains
        (lowerStr (generate_unique_filename base_name existing_files now)) = false) ∧
    (∀ (base_name : Str) (existing_files : List Rermius.Core.FileInfo) (now : Nat),
      (((existing_files.filter (fun f => !f.is_directory)).map
          (fun f => lowerStr f.name)).contains (lowerStr base_name) = true) →
      (∀ M, 1 ≤ M → M ≤ 1000 →
        ((existing_files.filter (fun f => !f.is_directory)).map
            (fun f => lowerStr f.name)).contains
          (lowerStr (candidateName (splitExt base_name).1 M (splitExt base_name).2))
          = true) →
      generate_unique_filename base_name existing_files now
        = fallbackName (splitExt base_name).1 now (splitExt base_name).2) ∧
    (generate_unique_filename (("report.txt").data)
        [mkEntry (("Report.TXT").data) false] 0 = ("report (1).txt").data) ∧
    (generate_unique_filename (("report.txt").data)
        [mkEntry (("report.txt").data) false, mkEntry (("report (1).txt").data) false]
        0 = ("report (2).txt").data) ∧
    (∀ (env : UploadEnv) (sid lp rp tid : Str) (n : Nat),
      env.localLen = Except.ok n → env.uploadResult = Except.ok () →
      ∀ e, (upload_file env true sid lp rp tid).events.getLast? = some e →
        (upload_file env true sid lp rp tid).uploadedPath = some e.remote_path ∧
        e.file_name = generate_unique_filename ((pathFileName rp).getD rp)
          ((env.listResult.toOption).getD []) env.now) ∧
    ((upload_file
        { localLen := Except.ok 5,
          listResult := Except.ok [mkEntry (("report.txt").data) false],
          chunks := [], uploadResult := Except.ok (), now := 0 }
        true (("s").data) (("/tmp/report.txt").data) (("/docs/report.txt").data)
        (("t").data)).uploadedPath = some (("/docs/report (1).txt").data)) := by
  refine ⟨?_, ?_, ?_, by decide, by decide, ?_, by decide⟩
  · intro base_name existing_files now h
    simp only [generate_unique_filename]
    rw [if_pos (by rw [h]; decide)]
  · intro base_name existing_files now N hbase h1 h1000 hfree hcoll
    have hgen : generate_unique_filename base_name existing_files now
        = candidateName (splitExt base_name).1 N (splitExt base_name).2 := by
      simp only [generate_unique_filename]
      rw [if_neg (by rw [hbase]; decide)]
      exact uniqueLoop_eq_candidate _ _ _ _ 1000 1 N h1 (by omega) hfree
        (fun M hM1 hM2 => hcoll M hM1 hM2)
    exact ⟨hgen, by rw [hgen]; exact hfree⟩
  · intro base_name existing_files now hbase hcoll
    simp only [generate_unique_filename]
    rw [if_neg (by rw [hbase]; decide)]
    exact uniqueLoop_exhausted _ _ _ _ 1000 1
      (fun M hM1 hM2 => hcoll M hM1 (by omega))
  · intro env sid lp rp tid n hlen hup e hlast
    simp only [upload_file, hlen, hup] at hlast ⊢
    rw [if_neg (by simp), List.getLast?_concat] at hlast
    rw [if_neg (by simp)]
    cases Option.some.inj hlast
    exact ⟨rfl, rfl⟩

/-- Witness for `upload_unique_filename`, applying its smallest-N part at the
"report.txt" beside "Report.TXT" instance with N = 1. -/
theorem upload_unique_filename_witness :
    generate_unique_filename (("report.txt").data)
      [mkEntry (("Report.TXT").data) false] 7
      = candidateName (splitExt (("report.txt").data)).1 1
          (splitExt (("report.txt").data)).2 :=
  (upload_unique_filename.2.1 (("report.txt").data)
    [mkEntry (("Report.TXT").data) false] 7 1
    (by decide) (by decide) (by decide) (by decide)
    (fun M hM1 hM2 => absurd (lt_of_le_of_lt hM1 hM2) (lt_irrefl 1))).1

end Rermius.Transfer

/-! ## Theorems: SSH chain failure handling -/

namespace Rermius.Ssh

lemma startsWithL_append {α : Type} [DecidableEq α] (pat suf : List α) :
    startsWithL pat (pat ++ suf) = true := by
  induction pat with
  | nil => simp [startsWithL]
  | cons p ps ih => simp [startsWithL, ih]

lemma containsSub_middle {α : Type} [DecidableEq α] (pre pat suf : List α) :
    containsSub (pre ++ (pat ++ suf)) pat = true := by
  induction pre with
  | nil =>
    cases pat with
    | nil => cases suf <;> simp [containsSub, startsWithL]
    | cons p ps =>
      simp only [containsSub, Bool.or_eq_true]
      exact Or.inl (startsWithL_append (p :: ps) suf)
  | cons c pre ih => simp [containsSub, ih]

/-- C1 counterexample: a 1-hop chain to host "hostB" whose password
authentication is rejected aborts with
"Chain connection failed: Authentication failed: Password auth failed for
alice" and registers nothing — but that error names neither the failing hop's
hostname "hostB" nor its index 0, refuting the claim that the returned error
identifies hop k. -/
theorem chain_error_counterexample :
    (create_session_chain
      { connectDirect := Except.ok (), bindListener := fun _ => Except.ok (),
        localAddr := fun _ => Except.ok (), sshOverTunnel := fun _ => Except.ok (),
        authPassword := fun _ => Except.ok false, loadKey := fun _ => Except.ok (),
        authPublickey := fun _ => Except.ok false, agentAuth := fun _ => Except.ok (),
        tunnelOpen := fun _ => Except.ok (), sftpNew := Except.ok () }
      []
      { hostname := ("hostB").data, port := 22, username := ("alice").data,
        auth := SshAuth.password (("pw").data) }
      [("s1").data] (("new-id").data))
    = (Except.error
        (("Chain connection failed: Authentication failed: Password auth failed for alice").data),
       [("s1").data]) ∧
    containsSub
      (("Chain connection failed: Authentication failed: Password auth failed for alice").data)
      (("hostB").data) = false ∧
    containsSub
      (("Chain connection failed: Authentication failed: Password auth failed for alice").data)
      (natStr 0) = false := by
  refine ⟨by decide, by decide, by decide⟩

/-- C1 (amended): a failure at any hop makes the whole chain return an error
and `create_session` then returns that error with the session registry
unchanged — no partially built session is ever registered; a tunnel-open
failure towards hop k+1 produces an error that names hop k+1's hostname,
while connect/handshake/authentication failures propagate the underlying
connector error, which does not in general carry the hop index or
hostname. -/
theorem chain_failure_aborts_before_registration :
    (∀ (env : ChainEnv) (jumps : List HostConfig) (target : HostConfig)
        (registry : List Str) (new_id : Str) (e : SshError),
      from_config_execute env jumps target = Except.error e →
      create_session_chain env jumps target registry new_id
        = (Except.error (("Chain connection failed: ").data ++ SshError.display e),
           registry)) ∧
    (∀ (env : ChainEnv) (cfg next : HostConfig) (rest : List HostConfig)
        (idx : Nat) (isFirst : Bool) (e : Str),
      (if isFirst then connectFirst env else connect_over_channel env idx)
        = Except.ok () →
      authenticate env idx cfg = Except.ok () →
      env.tunnelOpen idx = Except.error e →
      executeChain env (cfg :: next :: rest) idx isFirst
        = Except.error (SshError.Connection (tunnelErrMsg next e)) ∧
      containsSub (tunnelErrMsg next e) next.hostname = true) := by
  constructor
  · intro env jumps target registry new_id e h
    simp only [create_session_chain, h]
  · intro env cfg next rest idx isFirst e hconn hauth htun
    constructor
    · simp only [executeChain, hconn, hauth, htun]
    · simp only [tunnelErrMsg, List.append_assoc]
      exact containsSub_middle _ _ _

/-- Witness for `chain_failure_aborts_before_registration`, applying its
registration part to the concrete rejected-password chain. -/
theorem chain_failure_aborts_witness :
    create_session_chain
      { connectDirect := Except.ok (), bindListener := fun _ => Except.ok (),
        localAddr := fun _ => Except.ok (), sshOverTunnel := fun _ => Except.ok (),
        authPassword := fun _ => Except.ok false, loadKey := fun _ => Except.ok (),
        authPublickey := fun _ => Except.ok false, agentAuth := fun _ => Except.ok (),
        tunnelOpen := fun _ => Except.ok (), sftpNew := Except.ok () }
      []
      { hostname := ("hostB").data, port := 22, username := ("alice").data,
        auth := SshAuth.password (("pw").data) }
      [] (("n2").data)
    = (Except.error (("Chain connection failed: ").data ++ SshError.display
        (SshError.AuthFailed (("Password auth failed for alice").data))), []) :=
  chain_failure_aborts_before_registration.1 _ [] _ [] (("n2").data)
    (SshError.AuthFailed (("Password auth failed for alice").data)) (by decide)

end Rermius.Ssh
